import Mathlib

/-!
Verification development for the saga-orchestration example
(order-service, payment-service, inventory-service, shared).

Shallow embedding conventions:
* `Uuid` values are modelled as natural numbers; `DateTime<Utc>` timestamps as
  natural numbers.  Values generated at run time (`Uuid::new_v4()`,
  `Utc::now()`, the payment random draw) are passed in explicitly through a
  `Gen` record.
* `serde_json::Value` is modelled by the inductive `Json` below; JSON numbers
  are modelled as integers (the only numeric payload fields are identifiers,
  quantities and monetary amounts, and the source truncates monetary amounts
  to `i64` before persisting them).
* Each database table is modelled as a `List` of rows in insertion order;
  `first()` queries are `List.find?`, filtered `update` statements map over
  every matching row, inserts append.  The unique-key constraint of
  `processed_commands.idempotency_key` is modelled (a duplicate insert fails);
  primary-key constraints of the other tables are not exercised by any claim
  and inserts into them always succeed.
* A fallible service function returns `Except RunErr _`; the anyhow error is
  split by its source (db checkout, payload decode, duplicate key, publish).
* To reason about transactional atomicity, the participant `handle_command`
  model additionally records `commits`: the list of database states visible
  right after each commit point (a `conn.transaction` block or a standalone
  autocommitted statement).
-/

/-- Model of `serde_json::Value`. -/
inductive Json where
  | null : Json
  | bool (b : Bool) : Json
  | num (n : Int) : Json
  | str (s : String) : Json
  | arr (xs : List Json) : Json
  | obj (fields : List (String × Json)) : Json

/-- Field lookup in a JSON object (first binding wins, as in `serde_json`). -/
def jGet (j : Json) (k : String) : Option Json :=
  match j with
  | .obj fields => (fields.find? (fun p => p.1 == k)).map (·.2)
  | _ => none

/-- Decode a JSON value as a non-negative integer (`usize`/`Uuid` model). -/
def jNat (j : Json) : Except String Nat :=
  match j with
  | .num n => if 0 ≤ n then .ok n.toNat else .error "expected unsigned"
  | _ => .error "expected number"

/-- Decode a JSON value as an integer (`i32` / truncated amount model). -/
def jInt (j : Json) : Except String Int :=
  match j with
  | .num n => .ok n
  | _ => .error "expected number"

/-- Decode a JSON value as a string. -/
def jStr (j : Json) : Except String String :=
  match j with
  | .str s => .ok s
  | _ => .error "expected string"

/-- `shared::CommandType`. -/
inductive CommandType where
  | CreateOrder
  | ProcessPayment
  | ReserveInventory
  | ApproveOrder
  | CompensatePayment
  | CompensateInventory
  | CancelOrder
deriving DecidableEq

/-- `shared::CommandStatus`. -/
inductive CommandStatus where
  | Success
  | Failed
  | Compensated
deriving DecidableEq

/-- `shared::Command`. -/
structure Command where
  id : Nat
  saga_id : Nat
  command_type : CommandType
  payload : Json
  idempotency_key : String
  created_at : Nat

/-- `shared::CommandReply`. -/
structure CommandReply where
  id : Nat
  command_id : Nat
  saga_id : Nat
  status : CommandStatus
  result : Option Json
  error : Option String
  created_at : Nat

/-- `shared::SagaStep`. -/
structure SagaStep where
  command_type : CommandType
  compensation_type : Option CommandType
  service_name : String
deriving DecidableEq

/-- `shared::SagaStatus`. -/
inductive SagaStatus where
  | Started
  | InProgress
  | Completed
  | Compensating
  | Compensated
  | Failed
deriving DecidableEq

/-- `shared::SagaTransaction`.  The `HashMap<String, Value>` context is
modelled as an association list without duplicate keys (insertion replaces). -/
structure SagaTransaction where
  id : Nat
  steps : List SagaStep
  current_step : Nat
  status : SagaStatus
  context : List (String × Json)
  created_at : Nat
  updated_at : Nat

/-- `shared::OrderData` (`total_amount: f64` modelled as the truncated
integer that the services persist). -/
structure OrderData where
  order_id : Nat
  customer_id : Nat
  product_id : Nat
  quantity : Int
  total_amount : Int
deriving DecidableEq

/-- `shared::PaymentData`. -/
structure PaymentData where
  order_id : Nat
  amount : Int
  payment_method : String
deriving DecidableEq

/-- `shared::InventoryData`. -/
structure InventoryData where
  product_id : Nat
  quantity : Int
  order_id : Nat
deriving DecidableEq

/-- Run-time generated values and environment outcomes, passed explicitly:
fresh uuids, the current time, whether the db pool checkout and the bus
publish succeed, and the payment random draw (`rand::random::<f64>()`
modelled as an exact rational in `[0,1]`). -/
structure Gen where
  dbCheckoutOk : Bool
  publishOk : Bool
  replyId : Nat
  rowId : Nat
  cmdId : Nat
  nonce : Nat
  now : Nat
  rand : ℚ
deriving DecidableEq

/-- `CommandReply::success` (the fresh uuid and timestamp come from `g`). -/
def CommandReply.success (command_id saga_id : Nat) (result : Option Json)
    (g : Gen) : CommandReply :=
  { id := g.replyId
    command_id := command_id
    saga_id := saga_id
    status := .Success
    result := result
    error := none
    created_at := g.now }

/-- `CommandReply::failed`. -/
def CommandReply.failed (command_id saga_id : Nat) (error : String)
    (g : Gen) : CommandReply :=
  { id := g.replyId
    command_id := command_id
    saga_id := saga_id
    status := .Failed
    result := none
    error := some error
    created_at := g.now }

/-- `Command::new`: fresh id and `"{saga_id}_{random-uuid}"` idempotency key. -/
def Command.new (saga_id : Nat) (command_type : CommandType) (payload : Json)
    (g : Gen) : Command :=
  { id := g.cmdId
    saga_id := saga_id
    command_type := command_type
    payload := payload
    idempotency_key := toString saga_id ++ "_" ++ toString g.nonce
    created_at := g.now }

/-- Map access `context.get(k)`. -/
def ctxGet (ctx : List (String × Json)) (k : String) : Option Json :=
  (ctx.find? (fun p => p.1 == k)).map (·.2)

/-- `HashMap::insert`: replace any existing binding for the key. -/
def ctxInsert (ctx : List (String × Json)) (k : String) (v : Json) :
    List (String × Json) :=
  ctx.filter (fun p => p.1 ≠ k) ++ [(k, v)]

/-- serde encoding of a `CommandType` (externally tagged unit variant =
the variant-name string). -/
def encodeCommandType : CommandType → Json
  | .CreateOrder => .str "CreateOrder"
  | .ProcessPayment => .str "ProcessPayment"
  | .ReserveInventory => .str "ReserveInventory"
  | .ApproveOrder => .str "ApproveOrder"
  | .CompensatePayment => .str "CompensatePayment"
  | .CompensateInventory => .str "CompensateInventory"
  | .CancelOrder => .str "CancelOrder"

/-- serde decoding of a `CommandType`. -/
def decodeCommandType (j : Json) : Except String CommandType :=
  match j with
  | .str "CreateOrder" => .ok .CreateOrder
  | .str "ProcessPayment" => .ok .ProcessPayment
  | .str "ReserveInventory" => .ok .ReserveInventory
  | .str "ApproveOrder" => .ok .ApproveOrder
  | .str "CompensatePayment" => .ok .CompensatePayment
  | .str "CompensateInventory" => .ok .CompensateInventory
  | .str "CancelOrder" => .ok .CancelOrder
  | _ => .error "unknown CommandType"

/-- serde encoding of a `SagaStep` (`Option` as value-or-null). -/
def encodeSagaStep (s : SagaStep) : Json :=
  .obj [("command_type", encodeCommandType s.command_type),
        ("compensation_type",
          match s.compensation_type with
          | none => .null
          | some t => encodeCommandType t),
        ("service_name", .str s.service_name)]

/-- serde decoding of the optional `compensation_type` field value
(null decodes to `None`, otherwise the value must be a `CommandType`). -/
def decodeCompType (j : Json) : Except String (Option CommandType) :=
  match j with
  | .null => .ok none
  | v =>
    match decodeCommandType v with
    | .error e => .error e
    | .ok t => .ok (some t)

/-- serde decoding of a `SagaStep`. -/
def decodeSagaStep (j : Json) : Except String SagaStep :=
  match jGet j "command_type" with
  | none => .error "missing command_type"
  | some ctJ =>
  match decodeCommandType ctJ with
  | .error e => .error e
  | .ok ct =>
  match jGet j "compensation_type" with
  | none => .error "missing compensation_type"
  | some compJ =>
  match decodeCompType compJ with
  | .error e => .error e
  | .ok comp =>
  match jGet j "service_name" with
  | none => .error "missing service_name"
  | some snJ =>
  match jStr snJ with
  | .error e => .error e
  | .ok sn =>
    .ok { command_type := ct, compensation_type := comp, service_name := sn }

/-- serde encoding of `Vec<SagaStep>`. -/
def encodeSagaSteps (steps : List SagaStep) : Json :=
  .arr (steps.map encodeSagaStep)

/-- serde decoding of a list of `SagaStep` values (the `Vec` visitor decodes
element by element and stops at the first error). -/
def decodeStepList : List Json → Except String (List SagaStep)
  | [] => .ok []
  | j :: tl =>
    match decodeSagaStep j with
    | .error e => .error e
    | .ok s =>
      match decodeStepList tl with
      | .error e => .error e
      | .ok rest => .ok (s :: rest)

/-- serde decoding of `Vec<SagaStep>`. -/
def decodeSagaSteps (j : Json) : Except String (List SagaStep) :=
  match j with
  | .arr xs => decodeStepList xs
  | _ => .error "expected array"

/-- serde encoding of an `OrderData`. -/
def encodeOrderData (od : OrderData) : Json :=
  .obj [("order_id", .num od.order_id),
        ("customer_id", .num od.customer_id),
        ("product_id", .num od.product_id),
        ("quantity", .num od.quantity),
        ("total_amount", .num od.total_amount)]

/-- serde decoding of an `OrderData`. -/
def decodeOrderData (j : Json) : Except String OrderData :=
  match (jGet j "order_id").bind (fun v => (jNat v).toOption),
        (jGet j "customer_id").bind (fun v => (jNat v).toOption),
        (jGet j "product_id").bind (fun v => (jNat v).toOption),
        (jGet j "quantity").bind (fun v => (jInt v).toOption),
        (jGet j "total_amount").bind (fun v => (jInt v).toOption) with
  | some oid, some cid, some pid, some q, some ta =>
    .ok { order_id := oid, customer_id := cid, product_id := pid,
          quantity := q, total_amount := ta }
  | _, _, _, _, _ => .error "invalid OrderData"

/-- serde encoding of a `PaymentData`. -/
def encodePaymentData (pd : PaymentData) : Json :=
  .obj [("order_id", .num pd.order_id),
        ("amount", .num pd.amount),
        ("payment_method", .str pd.payment_method)]

/-- serde decoding of a `PaymentData`. -/
def decodePaymentData (j : Json) : Except String PaymentData :=
  match (jGet j "order_id").bind (fun v => (jNat v).toOption),
        (jGet j "amount").bind (fun v => (jInt v).toOption),
        (jGet j "payment_method").bind (fun v => (jStr v).toOption) with
  | some oid, some a, some pm =>
    .ok { order_id := oid, amount := a, payment_method := pm }
  | _, _, _ => .error "invalid PaymentData"

/-- serde encoding of an `InventoryData`. -/
def encodeInventoryData (d : InventoryData) : Json :=
  .obj [("product_id", .num d.product_id),
        ("quantity", .num d.quantity),
        ("order_id", .num d.order_id)]

/-- serde decoding of an `InventoryData`. -/
def decodeInventoryData (j : Json) : Except String InventoryData :=
  match (jGet j "product_id").bind (fun v => (jNat v).toOption),
        (jGet j "quantity").bind (fun v => (jInt v).toOption),
        (jGet j "order_id").bind (fun v => (jNat v).toOption) with
  | some pid, some q, some oid =>
    .ok { product_id := pid, quantity := q, order_id := oid }
  | _, _, _ => .error "invalid InventoryData"

example : decodeOrderData (encodeOrderData ⟨1, 2, 3, 4, 100⟩) =
    .ok ⟨1, 2, 3, 4, 100⟩ := rfl

/-- `SagaTransaction::new`: the fixed four-step forward plan, `status=Started`,
`current_step=0`, `context={"order_data": ...}`. -/
def SagaTransaction.new (order_data : OrderData) (g : Gen) : SagaTransaction :=
  { id := g.rowId
    steps :=
      [ { command_type := .CreateOrder
          compensation_type := some .CancelOrder
          service_name := "order-service" },
        { command_type := .ProcessPayment
          compensation_type := some .CompensatePayment
          service_name := "payment-service" },
        { command_type := .ReserveInventory
          compensation_type := some .CompensateInventory
          service_name := "inventory-service" },
        { command_type := .ApproveOrder
          compensation_type := none
          service_name := "order-service" } ]
    current_step := 0
    status := .Started
    context := ctxInsert [] "order_data" (encodeOrderData order_data)
    created_at := g.now
    updated_at := g.now }

/-- `SagaTransaction::next_step`. -/
def SagaTransaction.next_step (s : SagaTransaction) : Option SagaStep :=
  if s.current_step < s.steps.length then s.steps.get? s.current_step else none

/-- `SagaTransaction::advance_step` (bumps `updated_at` when it advances). -/
def SagaTransaction.advance_step (s : SagaTransaction) (now : Nat) :
    SagaTransaction :=
  if s.current_step < s.steps.length then
    { s with current_step := s.current_step + 1, updated_at := now }
  else s

/-- `SagaTransaction::get_compensation_steps`: the slice `steps[0..current_step]`
(requires `current_step ≤ steps.len()` in the source, where it is an invariant),
reversed, filtered to the steps that have a compensation type. -/
def SagaTransaction.get_compensation_steps (s : SagaTransaction) :
    List SagaStep :=
  ((s.steps.take s.current_step).reverse).filter
    (fun step => step.compensation_type.isSome)

/-- The sources of the `anyhow::Error`s a participant can propagate. -/
inductive RunErr where
  | dbCheckout
  | decodeFail (msg : String)
  | duplicateKey
  | publish
deriving DecidableEq

/-- A row of a `processed_commands` table.  Each service declares an identical
`ProcessedCommand` model struct; they are modelled once. -/
structure ProcessedCommand where
  idempotency_key : String
  command_id : Nat
  result : Option Json
  processed_at : Option Nat

namespace OrderService

/-- A row of the `orders` table (timestamp columns filled by db defaults). -/
structure OrderRow where
  id : Nat
  customer_id : Nat
  product_id : Nat
  quantity : Int
  total_amount : Int
  status : String
  created_at : Option Nat := none
  updated_at : Option Nat := none

/-- A row of the `outbox_events` table (`processed` defaults to false). -/
structure OutboxRow where
  id : Nat
  aggregate_id : Nat
  event_type : String
  event_data : Json
  processed : Bool := false
  created_at : Option Nat := none

/-- The order participant's local database. -/
structure OrderDb where
  orders : List OrderRow
  outbox_events : List OutboxRow
  processed_commands : List ProcessedCommand

/-- `CommandHandler::check_idempotency`: first row with the key. -/
def check_idempotency (st : OrderDb) (key : String) : Option ProcessedCommand :=
  st.processed_commands.find? (fun p => p.idempotency_key == key)

/-- `CommandHandler::store_processed_command`: a single autocommitted insert;
the primary-key constraint on `idempotency_key` makes a duplicate insert fail,
and the function propagates that error. -/
def store_processed_command (st : OrderDb) (cmd : Command)
    (reply : CommandReply) (g : Gen) : Except RunErr OrderDb :=
  if st.processed_commands.any (fun p => p.idempotency_key == cmd.idempotency_key)
  then .error .duplicateKey
  else .ok { st with processed_commands :=
    st.processed_commands ++
      [{ idempotency_key := cmd.idempotency_key
         command_id := cmd.id
         result := reply.result
         processed_at := some g.now }] }

/-- `CommandHandler::handle_create_order`: in one `conn.transaction`, insert
the order row and the `OrderCreated` outbox row; reply Success with the order
data.  Returns the new state, the committed states, and the reply. -/
def handle_create_order (st : OrderDb) (cmd : Command) (g : Gen) :
    Except RunErr (OrderDb × List OrderDb × CommandReply) :=
  match decodeOrderData cmd.payload with
  | .error e => .error (.decodeFail e)
  | .ok order_data =>
    let new_order : OrderRow :=
      { id := order_data.order_id
        customer_id := order_data.customer_id
        product_id := order_data.product_id
        quantity := order_data.quantity
        total_amount := order_data.total_amount
        status := "created" }
    let outbox_event : OutboxRow :=
      { id := g.rowId
        aggregate_id := order_data.order_id
        event_type := "OrderCreated"
        event_data := encodeOrderData order_data }
    let st1 : OrderDb :=
      { st with orders := st.orders ++ [new_order]
                outbox_events := st.outbox_events ++ [outbox_event] }
    .ok (st1, [st1],
      CommandReply.success cmd.id cmd.saga_id
        (some (encodeOrderData order_data)) g)

/-- `CommandHandler::handle_approve_order`: one autocommitted update of every
order row with the order id to status "approved". -/
def handle_approve_order (st : OrderDb) (cmd : Command) (g : Gen) :
    Except RunErr (OrderDb × List OrderDb × CommandReply) :=
  match decodeOrderData cmd.payload with
  | .error e => .error (.decodeFail e)
  | .ok order_data =>
    let st1 : OrderDb :=
      { st with orders := st.orders.map (fun o =>
          if o.id = order_data.order_id then { o with status := "approved" }
          else o) }
    .ok (st1, [st1],
      CommandReply.success cmd.id cmd.saga_id
        (some (encodeOrderData order_data)) g)

/-- `CommandHandler::handle_cancel_order`: one autocommitted update of every
order row with the order id to status "cancelled". -/
def handle_cancel_order (st : OrderDb) (cmd : Command) (g : Gen) :
    Except RunErr (OrderDb × List OrderDb × CommandReply) :=
  match decodeOrderData cmd.payload with
  | .error e => .error (.decodeFail e)
  | .ok order_data =>
    let st1 : OrderDb :=
      { st with orders := st.orders.map (fun o =>
          if o.id = order_data.order_id then { o with status := "cancelled" }
          else o) }
    .ok (st1, [st1],
      CommandReply.success cmd.id cmd.saga_id
        (some (encodeOrderData order_data)) g)

/-- Result of one `handle_command` call: final database state, the states
committed along the way, the replies published to the bus, and the
`Result<()>` outcome. -/
structure HcResult (σ : Type) where
  state : σ
  commits : List σ
  sent : List CommandReply
  outcome : Except RunErr Unit

/-- `CommandHandler::handle_command` of the order participant:
checkout → idempotency lookup (hit: cached Success reply, no handler) →
dispatch on `command_type` → `store_processed_command` → `send_reply`. -/
def orderHandleCommand (st : OrderDb) (cmd : Command) (g : Gen) :
    HcResult OrderDb :=
  if !g.dbCheckoutOk then ⟨st, [], [], .error .dbCheckout⟩ else
  match check_idempotency st cmd.idempotency_key with
  | some existing =>
    let reply : CommandReply :=
      { id := g.replyId
        command_id := cmd.id
        saga_id := cmd.saga_id
        status := .Success
        result := existing.result
        error := none
        created_at := g.now }
    if g.publishOk then ⟨st, [], [reply], .ok ()⟩
    else ⟨st, [], [], .error .publish⟩
  | none =>
    let handled : Except RunErr (OrderDb × List OrderDb × CommandReply) :=
      match cmd.command_type with
      | .CreateOrder => handle_create_order st cmd g
      | .ApproveOrder => handle_approve_order st cmd g
      | .CancelOrder => handle_cancel_order st cmd g
      | _ => .ok (st, [],
          CommandReply.failed cmd.id cmd.saga_id "Unsupported command type" g)
    match handled with
    | .error e => ⟨st, [], [], .error e⟩
    | .ok (st1, cs, reply) =>
      match store_processed_command st1 cmd reply g with
      | .error e => ⟨st1, cs, [], .error e⟩
      | .ok st2 =>
        if g.publishOk then ⟨st2, cs ++ [st2], [reply], .ok ()⟩
        else ⟨st2, cs ++ [st2], [], .error .publish⟩

/-- The decoding outcome of one polled bus message, abstracting the layers
`Result<BorrowedMessage>`, `payload_view::<str>()` and `serde_json::from_str`. -/
inductive BusMessage where
  | recvError
  | noPayload
  | badUtf8
  | badJson
  | cmdMsg (cmd : Command)

/-- The observable outcome of one iteration of a consumer loop. -/
structure StepResult (σ : Type) where
  state : σ
  offsetCommitted : Bool
  logs : List String

/-- One iteration of `CommandHandler::run` of the order participant:
only a stream receive error skips `consumer.commit_message`; every decoded or
undecodable payload, and every handler outcome, is followed by the offset
commit. -/
def orderRunStep (st : OrderDb) (m : BusMessage) (g : Gen) :
    StepResult OrderDb :=
  match m with
  | .recvError => ⟨st, false, ["Error receiving message"]⟩
  | .noPayload => ⟨st, true, []⟩
  | .badUtf8 => ⟨st, true, ["Error parsing payload"]⟩
  | .badJson => ⟨st, true, []⟩
  | .cmdMsg cmd =>
    let r := orderHandleCommand st cmd g
    match r.outcome with
    | .ok _ => ⟨r.state, true, []⟩
    | .error _ => ⟨r.state, true, ["Error handling command"]⟩

end OrderService

namespace OrderService

/-- `models::DbSagaTransaction`: the persisted `saga_transactions` row. -/
structure DbSagaTransaction where
  id : Nat
  steps : Json
  current_step : Int
  status : String
  context : Json
  created_at : Option Nat
  updated_at : Option Nat

/-- The Rust cast `usize as i32` (64-bit `usize`, two's-complement wrap). -/
def usizeToI32 (n : Nat) : Int :=
  (((n + 2 ^ 31) % 2 ^ 32 : Nat) : Int) - 2 ^ 31

/-- The Rust cast `i32 as usize` (64-bit `usize`, two's-complement wrap). -/
def i32ToUsize (i : Int) : Nat :=
  (i % 2 ^ 64).toNat

/-- `format!("{:?}", status)`: the variant name. -/
def sagaStatusName : SagaStatus → String
  | .Started => "Started"
  | .InProgress => "InProgress"
  | .Completed => "Completed"
  | .Compensating => "Compensating"
  | .Compensated => "Compensated"
  | .Failed => "Failed"

/-- `impl From<SagaTransaction> for DbSagaTransaction`. -/
def DbSagaTransaction.fromSaga (saga : SagaTransaction) : DbSagaTransaction :=
  { id := saga.id
    steps := encodeSagaSteps saga.steps
    current_step := usizeToI32 saga.current_step
    status := sagaStatusName saga.status
    context := Json.obj saga.context
    created_at := some saga.created_at
    updated_at := some saga.updated_at }

/-- `serde_json::from_value::<HashMap<String, Value>>`. -/
def decodeContext (j : Json) : Except String (List (String × Json)) :=
  match j with
  | .obj fields => .ok fields
  | _ => .error "expected object"

/-- `impl TryFrom<DbSagaTransaction> for SagaTransaction`; `now` is the
`Utc::now()` fallback for null timestamps.  Unknown status strings map to
`Failed`. -/
def SagaTransaction.tryFrom (db_saga : DbSagaTransaction) (now : Nat) :
    Except String SagaTransaction :=
  match decodeSagaSteps db_saga.steps with
  | .error e => .error e
  | .ok steps =>
    let status : SagaStatus :=
      match db_saga.status with
      | "Started" => .Started
      | "InProgress" => .InProgress
      | "Completed" => .Completed
      | "Compensating" => .Compensating
      | "Compensated" => .Compensated
      | "Failed" => .Failed
      | _ => .Failed
    match decodeContext db_saga.context with
    | .error e => .error e
    | .ok context =>
      .ok { id := db_saga.id
            steps := steps
            current_step := i32ToUsize db_saga.current_step
            status := status
            context := context
            created_at := db_saga.created_at.getD now
            updated_at := db_saga.updated_at.getD now }

/-- `SagaManager::create_command_for_step` (command-building rules; `.unwrap()`
panics on a missing context key are modelled as errors). -/
def create_command_for_step (saga : SagaTransaction) (step : SagaStep)
    (g : Gen) : Except String Command :=
  match (match step.command_type with
    | .CreateOrder | .ApproveOrder | .CancelOrder =>
        (match ctxGet saga.context "order_data" with
         | none => Except.error "order_data missing"
         | some odJ =>
           match decodeOrderData odJ with
           | .error e => .error e
           | .ok order_data => .ok (encodeOrderData order_data))
    | .ProcessPayment =>
        (match ctxGet saga.context "order_data" with
         | none => Except.error "order_data missing"
         | some odJ =>
           match decodeOrderData odJ with
           | .error e => .error e
           | .ok order_data =>
             .ok (encodePaymentData
               { order_id := order_data.order_id
                 amount := order_data.total_amount
                 payment_method := "credit_card" }))
    | .ReserveInventory =>
        (match ctxGet saga.context "order_data" with
         | none => Except.error "order_data missing"
         | some odJ =>
           match decodeOrderData odJ with
           | .error e => .error e
           | .ok order_data =>
             .ok (encodeInventoryData
               { product_id := order_data.product_id
                 quantity := order_data.quantity
                 order_id := order_data.order_id }))
    | _ => Except.error "Unsupported command type") with
  | .error e => .error e
  | .ok payload => .ok (Command.new saga.id step.command_type payload g)

/-- The payload `match` inside `SagaManager::process_next_compensation`,
factored out: the compensation payload built from `context["order_data"]`. -/
def compensation_payload (saga : SagaTransaction) (compensation_type : CommandType) :
    Except String Json :=
  match compensation_type with
  | .CancelOrder =>
    (match ctxGet saga.context "order_data" with
     | none => Except.error "order_data missing"
     | some odJ =>
       match decodeOrderData odJ with
       | .error e => .error e
       | .ok order_data => .ok (encodeOrderData order_data))
  | .CompensatePayment =>
    (match ctxGet saga.context "order_data" with
     | none => Except.error "order_data missing"
     | some odJ =>
       match decodeOrderData odJ with
       | .error e => .error e
       | .ok order_data =>
         .ok (encodePaymentData
           { order_id := order_data.order_id
             amount := order_data.total_amount
             payment_method := "credit_card" }))
  | .CompensateInventory =>
    (match ctxGet saga.context "order_data" with
     | none => Except.error "order_data missing"
     | some odJ =>
       match decodeOrderData odJ with
       | .error e => .error e
       | .ok order_data =>
         .ok (encodeInventoryData
           { product_id := order_data.product_id
             quantity := order_data.quantity
             order_id := order_data.order_id }))
  | _ =>
    (match ctxGet saga.context "order_data" with
     | none => Except.error "order_data missing"
     | some v => .ok v)

/-- `SagaManager::process_next_compensation`: read the stored plan and cursor;
if a step remains, build and send its compensation command; otherwise the saga
becomes `Compensated`.  Sends are returned as `(service_name, command)` pairs
(the topic is `{service_name}-commands`). -/
def process_next_compensation (saga : SagaTransaction) (g : Gen) :
    Except String (SagaTransaction × List (String × Command)) :=
  match ctxGet saga.context "compensation_steps" with
  | none => .error "compensation_steps missing"
  | some csJ =>
  match decodeSagaSteps csJ with
  | .error e => .error e
  | .ok compensation_steps =>
  match ctxGet saga.context "compensation_index" with
  | none => .error "compensation_index missing"
  | some idxJ =>
  match jNat idxJ with
  | .error e => .error e
  | .ok compensation_index =>
  match compensation_steps.get? compensation_index with
  | some step =>
    (match step.compensation_type with
     | some compensation_type =>
       (match compensation_payload saga compensation_type with
        | .error e => .error e
        | .ok payload =>
          if g.publishOk then
            .ok (saga, [(step.service_name,
                         Command.new saga.id compensation_type payload g)])
          else .error "Failed to send command")
     | none => .ok (saga, []))
  | none => .ok ({ saga with status := .Compensated }, [])

/-- `SagaManager::start_compensation`: store the reversed filtered plan and a
zero cursor in the context, then process the first compensation step. -/
def start_compensation (saga : SagaTransaction) (g : Gen) :
    Except String (SagaTransaction × List (String × Command)) :=
  let owned_steps := saga.get_compensation_steps
  let ctx1 :=
    ctxInsert
      (ctxInsert saga.context "compensation_steps"
        (encodeSagaSteps owned_steps))
      "compensation_index" (Json.num 0)
  let saga1 : SagaTransaction := { saga with context := ctx1 }
  process_next_compensation saga1 g

/-- `SagaManager::continue_compensation` (legacy `Compensated`-reply path). -/
def continue_compensation (saga : SagaTransaction) :
    SagaTransaction × List (String × Command) :=
  if saga.get_compensation_steps.isEmpty then
    ({ saga with status := .Compensated }, [])
  else (saga, [])

/-- The body of `SagaManager::handle_reply` between loading the saga row and
persisting it back: branch on the reply status and mutate the saga, possibly
sending follow-up commands. -/
def handleReplySaga (saga : SagaTransaction) (reply : CommandReply) (g : Gen) :
    Except String (SagaTransaction × List (String × Command)) :=
  match reply.status with
  | .Success =>
    if saga.status = .Compensating then
      match ctxGet saga.context "compensation_index" with
      | some v =>
        (match jNat v with
         | .error e => .error e
         | .ok compensation_index =>
           let ctx1 :=
             ctxInsert saga.context "compensation_index"
               (Json.num (compensation_index + 1))
           process_next_compensation { saga with context := ctx1 } g)
      | none => .ok ({ saga with status := .Compensated }, [])
    else
      let saga1 := saga.advance_step g.now
      match saga1.next_step with
      | some step =>
        (match create_command_for_step saga1 step g with
         | .error e => .error e
         | .ok command =>
           if g.publishOk then .ok (saga1, [(step.service_name, command)])
           else Except.error "Failed to send command")
      | none => .ok ({ saga1 with status := .Completed }, [])
  | .Failed =>
    start_compensation { saga with status := .Compensating } g
  | .Compensated =>
    .ok (continue_compensation saga)

end OrderService

/-- serde encoding of an optional timestamp / optional number column. -/
def encodeOptNat (v : Option Nat) : Json :=
  match v with
  | none => .null
  | some n => .num n

namespace InventoryService

/-- A row of the `inventory` table. -/
structure Inventory where
  id : Nat
  product_id : Nat
  available_quantity : Int
  reserved_quantity : Int
  created_at : Option Nat := none
  updated_at : Option Nat := none

/-- A row of the `reservations` table. -/
structure Reservation where
  id : Nat
  product_id : Nat
  order_id : Nat
  quantity : Int
  status : String
  created_at : Option Nat := none
  updated_at : Option Nat := none

/-- serde encoding of a full `Reservation` row (`to_value(&reservation)`). -/
def encodeReservation (r : Reservation) : Json :=
  .obj [("id", .num r.id),
        ("product_id", .num r.product_id),
        ("order_id", .num r.order_id),
        ("quantity", .num r.quantity),
        ("status", .str r.status),
        ("created_at", encodeOptNat r.created_at),
        ("updated_at", encodeOptNat r.updated_at)]

/-- The inventory participant's local database. -/
structure InvDb where
  inventory : List Inventory
  reservations : List Reservation
  processed_commands : List ProcessedCommand

/-- `CommandHandler::check_idempotency` (inventory participant). -/
def check_idempotency (st : InvDb) (key : String) : Option ProcessedCommand :=
  st.processed_commands.find? (fun p => p.idempotency_key == key)

/-- `CommandHandler::store_processed_command` (inventory participant). -/
def store_processed_command (st : InvDb) (cmd : Command)
    (reply : CommandReply) (g : Gen) : Except RunErr InvDb :=
  if st.processed_commands.any (fun p => p.idempotency_key == cmd.idempotency_key)
  then .error .duplicateKey
  else .ok { st with processed_commands :=
    st.processed_commands ++
      [{ idempotency_key := cmd.idempotency_key
         command_id := cmd.id
         result := reply.result
         processed_at := some g.now }] }

/-- `CommandHandler::handle_reserve_inventory`: if the first reservation found
for `(order_id, product_id)` has status "reserved", reply Success with that
row; otherwise look the inventory row up, failing with "Product not found" or
"Insufficient inventory", else in one transaction decrement available,
increment reserved and append a "reserved" reservation. -/
def handle_reserve_inventory (st : InvDb) (cmd : Command) (g : Gen) :
    Except RunErr (InvDb × List InvDb × CommandReply) :=
  match decodeInventoryData cmd.payload with
  | .error e => .error (.decodeFail e)
  | .ok inventory_data =>
    let existing_reservation := st.reservations.find? (fun r =>
      r.order_id == inventory_data.order_id &&
      r.product_id == inventory_data.product_id)
    let hit : Option Reservation :=
      match existing_reservation with
      | some r => if r.status = "reserved" then some r else none
      | none => none
    match hit with
    | some reservation =>
      .ok (st, [],
        CommandReply.success cmd.id cmd.saga_id
          (some (encodeReservation reservation)) g)
    | none =>
      match st.inventory.find? (fun i =>
          i.product_id == inventory_data.product_id) with
      | none =>
        .ok (st, [],
          CommandReply.failed cmd.id cmd.saga_id "Product not found" g)
      | some inventory_item =>
        if inventory_item.available_quantity < inventory_data.quantity then
          .ok (st, [],
            CommandReply.failed cmd.id cmd.saga_id "Insufficient inventory" g)
        else
          let new_reservation : Reservation :=
            { id := g.rowId
              product_id := inventory_data.product_id
              order_id := inventory_data.order_id
              quantity := inventory_data.quantity
              status := "reserved" }
          let st1 : InvDb :=
            { st with
                inventory := st.inventory.map (fun i =>
                  if i.product_id = inventory_data.product_id then
                    { i with
                        available_quantity :=
                          i.available_quantity - inventory_data.quantity
                        reserved_quantity :=
                          i.reserved_quantity + inventory_data.quantity }
                  else i)
                reservations := st.reservations ++ [new_reservation] }
          .ok (st1, [st1],
            CommandReply.success cmd.id cmd.saga_id
              (some (Json.obj [("reserved", .bool true),
                               ("quantity", .num inventory_data.quantity)])) g)

/-- `CommandHandler::handle_compensate_inventory`: if the first reservation
found for `(order_id, product_id)` has status "reserved", restore the counts
and cancel it in one transaction; always reply Success. -/
def handle_compensate_inventory (st : InvDb) (cmd : Command) (g : Gen) :
    Except RunErr (InvDb × List InvDb × CommandReply) :=
  match decodeInventoryData cmd.payload with
  | .error e => .error (.decodeFail e)
  | .ok inventory_data =>
    let found := st.reservations.find? (fun r =>
      r.order_id == inventory_data.order_id &&
      r.product_id == inventory_data.product_id)
    let reply := CommandReply.success cmd.id cmd.saga_id
      (some (Json.obj [("compensated", .bool true)])) g
    match found with
    | some reservation =>
      if reservation.status = "reserved" then
        let st1 : InvDb :=
          { st with
              inventory := st.inventory.map (fun i =>
                if i.product_id = inventory_data.product_id then
                  { i with
                      available_quantity :=
                        i.available_quantity + reservation.quantity
                      reserved_quantity :=
                        i.reserved_quantity - reservation.quantity }
                else i)
              reservations := st.reservations.map (fun r =>
                if r.id = reservation.id then { r with status := "cancelled" }
                else r) }
        .ok (st1, [st1], reply)
      else .ok (st, [], reply)
    | none => .ok (st, [], reply)

/-- `CommandHandler::handle_command` of the inventory participant. -/
def invHandleCommand (st : InvDb) (cmd : Command) (g : Gen) :
    OrderService.HcResult InvDb :=
  if !g.dbCheckoutOk then ⟨st, [], [], .error .dbCheckout⟩ else
  match check_idempotency st cmd.idempotency_key with
  | some existing =>
    let reply : CommandReply :=
      { id := g.replyId
        command_id := cmd.id
        saga_id := cmd.saga_id
        status := .Success
        result := existing.result
        error := none
        created_at := g.now }
    if g.publishOk then ⟨st, [], [reply], .ok ()⟩
    else ⟨st, [], [], .error .publish⟩
  | none =>
    let handled : Except RunErr (InvDb × List InvDb × CommandReply) :=
      match cmd.command_type with
      | .ReserveInventory => handle_reserve_inventory st cmd g
      | .CompensateInventory => handle_compensate_inventory st cmd g
      | _ => .ok (st, [],
          CommandReply.failed cmd.id cmd.saga_id "Unsupported command type" g)
    match handled with
    | .error e => ⟨st, [], [], .error e⟩
    | .ok (st1, cs, reply) =>
      match store_processed_command st1 cmd reply g with
      | .error e => ⟨st1, cs, [], .error e⟩
      | .ok st2 =>
        if g.publishOk then ⟨st2, cs ++ [st2], [reply], .ok ()⟩
        else ⟨st2, cs ++ [st2], [], .error .publish⟩

/-- One iteration of `CommandHandler::run` of the inventory participant. -/
def invRunStep (st : InvDb) (m : OrderService.BusMessage) (g : Gen) :
    OrderService.StepResult InvDb :=
  match m with
  | .recvError => ⟨st, false, ["Error receiving message"]⟩
  | .noPayload => ⟨st, true, []⟩
  | .badUtf8 => ⟨st, true, ["Error parsing payload"]⟩
  | .badJson => ⟨st, true, []⟩
  | .cmdMsg cmd =>
    let r := invHandleCommand st cmd g
    match r.outcome with
    | .ok _ => ⟨r.state, true, []⟩
    | .error _ => ⟨r.state, true, ["Error handling command"]⟩

end InventoryService

namespace PaymentService

/-- A row of the `payments` table. -/
structure Payment where
  id : Nat
  order_id : Nat
  amount : Int
  payment_method : String
  status : String
  processed_at : Option Nat := none
  created_at : Option Nat := none
  updated_at : Option Nat := none

/-- serde encoding of a full `Payment` row (`to_value(&payment)`). -/
def encodePayment (p : Payment) : Json :=
  .obj [("id", .num p.id),
        ("order_id", .num p.order_id),
        ("amount", .num p.amount),
        ("payment_method", .str p.payment_method),
        ("status", .str p.status),
        ("processed_at", encodeOptNat p.processed_at),
        ("created_at", encodeOptNat p.created_at),
        ("updated_at", encodeOptNat p.updated_at)]

/-- serde encoding of a `NewPayment` (`to_value(&new_payment)`: only the
insertable columns). -/
def encodeNewPayment (p : Payment) : Json :=
  .obj [("id", .num p.id),
        ("order_id", .num p.order_id),
        ("amount", .num p.amount),
        ("payment_method", .str p.payment_method),
        ("status", .str p.status)]

/-- The payment participant's local database. -/
structure PayDb where
  payments : List Payment
  processed_commands : List ProcessedCommand

/-- `CommandHandler::handle_process_payment`: if the first payment row found
for the order has status "processed", reply Success with that row; otherwise
draw `rand::random::<f64>() < 0.8` (the draw comes from `g.rand`; the f64
constant 0.8 is modelled as the exact rational 4/5); on failure
reply Failed, on success insert a "processed" payment row and reply Success
with the inserted values. -/
def handle_process_payment (st : PayDb) (cmd : Command) (g : Gen) :
    Except RunErr (PayDb × List PayDb × CommandReply) :=
  match decodePaymentData cmd.payload with
  | .error e => .error (.decodeFail e)
  | .ok payment_data =>
    let attempt : Unit → Except RunErr (PayDb × List PayDb × CommandReply) :=
      fun _ =>
        let success_rate : ℚ := mkRat 4 5
        let should_succeed : Bool := decide (g.rand < success_rate)
        if !should_succeed then
          .ok (st, [],
            CommandReply.failed cmd.id cmd.saga_id
              "Payment processing failed" g)
        else
          let new_payment : Payment :=
            { id := g.rowId
              order_id := payment_data.order_id
              amount := payment_data.amount
              payment_method := payment_data.payment_method
              status := "processed" }
          let st1 : PayDb := { st with payments := st.payments ++ [new_payment] }
          .ok (st1, [st1],
            CommandReply.success cmd.id cmd.saga_id
              (some (encodeNewPayment new_payment)) g)
    match st.payments.find? (fun p => p.order_id == payment_data.order_id) with
    | some payment =>
      if payment.status = "processed" then
        .ok (st, [],
          CommandReply.success cmd.id cmd.saga_id
            (some (encodePayment payment)) g)
      else attempt ()
    | none => attempt ()

/-- `CommandHandler::handle_compensate_payment`: one autocommitted update of
every payment row for the order to status "refunded"; always Success. -/
def handle_compensate_payment (st : PayDb) (cmd : Command) (g : Gen) :
    Except RunErr (PayDb × List PayDb × CommandReply) :=
  match decodePaymentData cmd.payload with
  | .error e => .error (.decodeFail e)
  | .ok payment_data =>
    let st1 : PayDb :=
      { st with payments := st.payments.map (fun p =>
          if p.order_id = payment_data.order_id then
            { p with status := "refunded" }
          else p) }
    .ok (st1, [st1],
      CommandReply.success cmd.id cmd.saga_id
        (some (Json.obj [("refunded", .bool true)])) g)

end PaymentService

/-- The saga invariant of the specification: the step cursor stays within the
plan, and a `Completed` saga has consumed the whole plan. -/
def sagaInv (s : SagaTransaction) : Prop :=
  s.current_step ≤ s.steps.length ∧
  (s.status = .Completed → s.current_step = s.steps.length)

/-- `Except.isOk` spelled out for the model. -/
def exceptOk {ε α : Type} (x : Except ε α) : Bool :=
  match x with
  | .ok _ => true
  | .error _ => false

/-! ### Concrete fixtures used by witnesses and counterexamples -/

/-- A generator environment where everything succeeds and the payment draw is
1/2 (a draw below the 4/5 success rate). -/
def g0 : Gen := ⟨true, true, 500, 501, 502, 503, 1000, mkRat 1 2⟩

/-- `g0` with a failing database-pool checkout. -/
def gBad : Gen := ⟨false, true, 500, 501, 502, 503, 1000, mkRat 1 2⟩

/-- `g0` with a payment draw of 9/10 (at or above the 4/5 success rate). -/
def gF : Gen := ⟨true, true, 500, 501, 502, 503, 1000, mkRat 9 10⟩

/-- Order data: order 10 by customer 20 for 2 units of product 30, total 100. -/
def od0 : OrderData := ⟨10, 20, 30, 2, 100⟩

/-- A `CreateOrder` command carrying `od0` with idempotency key "k1". -/
def cmdCreate : Command := ⟨1, 2, .CreateOrder, encodeOrderData od0, "k1", 0⟩

/-- A `ProcessPayment` command for order 10 with idempotency key "k2". -/
def cmdPay : Command :=
  ⟨1, 2, .ProcessPayment, encodePaymentData ⟨10, 100, "credit_card"⟩, "k2", 0⟩

/-- A `ReserveInventory` command for 2 units of product 30 on order 10. -/
def cmdRes : Command :=
  ⟨1, 2, .ReserveInventory, encodeInventoryData ⟨30, 2, 10⟩, "k3", 0⟩

/-- An empty order-service database. -/
def s0 : OrderService.OrderDb := ⟨[], [], []⟩

/-- An order-service database whose `processed_commands` already holds key
"k1" with cached result `7`. -/
def sHit : OrderService.OrderDb := ⟨[], [], [⟨"k1", 9, some (Json.num 7), some 5⟩]⟩

/-- The order-service database after `cmdCreate` has been fully handled on
`s0` (the state a concurrently racing second worker would have committed). -/
def sAfter : OrderService.OrderDb :=
  ⟨[⟨10, 20, 30, 2, 100, "created", none, none⟩],
   [⟨501, 10, "OrderCreated", encodeOrderData od0, false, none⟩],
   [⟨"k1", 1, some (encodeOrderData od0), some 1000⟩]⟩

/-- An empty payment-service database. -/
def pay0 : PaymentService.PayDb := ⟨[], []⟩

/-- A payment database for order 10 holding a "refunded" row before a
"processed" row (reachable via process → compensate → re-process). -/
def pay2 : PaymentService.PayDb :=
  ⟨[⟨100, 10, 100, "credit_card", "refunded", none, none, none⟩,
    ⟨101, 10, 100, "credit_card", "processed", none, none, none⟩], []⟩

/-- A payment database whose first row for order 10 is "processed". -/
def pay3 : PaymentService.PayDb :=
  ⟨[⟨101, 10, 100, "credit_card", "processed", none, none, none⟩], []⟩

/-- An inventory database with 10 available units of product 30 and, for
order 10, a "cancelled" reservation ahead of a "reserved" one (reachable via
reserve → compensate → re-reserve). -/
def inv0 : InventoryService.InvDb :=
  ⟨[⟨1, 30, 10, 0, none, none⟩],
   [⟨11, 30, 10, 2, "cancelled", none, none⟩, ⟨12, 30, 10, 2, "reserved", none, none⟩],
   []⟩

/-- An inventory database whose first reservation for (order 10, product 30)
is "reserved". -/
def invHit : InventoryService.InvDb :=
  ⟨[⟨1, 30, 10, 2, none, none⟩], [⟨12, 30, 10, 2, "reserved", none, none⟩], []⟩

/-- An inventory database with a short stock of product 30. -/
def invShort : InventoryService.InvDb := ⟨[⟨1, 30, 1, 0, none, none⟩], [], []⟩

/-- The saga produced by `SagaTransaction.new od0 g0`. -/
def saga0 : SagaTransaction := SagaTransaction.new od0 g0

/-- `saga0` about to run its third step (steps 0 and 1 already succeeded). -/
def saga2f : SagaTransaction := { saga0 with current_step := 2, status := .InProgress }

/-- A `Failed` reply for saga 2. -/
def replyFail : CommandReply := ⟨600, 1, 2, .Failed, none, some "boom", 0⟩

/-- A `Success` reply for saga 2. -/
def replySucc : CommandReply := ⟨600, 1, 2, .Success, none, none, 0⟩

/-- A saga whose `current_step` is `2^31` (constructible; the program itself
can produce oversized cursors by decoding a row with a negative
`current_step`). -/
def sagaBig : SagaTransaction := ⟨0, [], 2 ^ 31, .Started, [], 0, 0⟩

/-- A persisted saga row carrying an unknown status string. -/
def dbGarbage : OrderService.DbSagaTransaction :=
  { OrderService.DbSagaTransaction.fromSaga saga0 with status := "Garbage" }

/-- An inventory database with enough stock and no reservations. -/
def invOk : InventoryService.InvDb := ⟨[⟨1, 30, 10, 0, none, none⟩], [], []⟩

/-- Forward step 0 of the fixed plan. -/
def step0 : SagaStep := ⟨.CreateOrder, some .CancelOrder, "order-service"⟩

/-- Forward step 1 of the fixed plan. -/
def step1 : SagaStep := ⟨.ProcessPayment, some .CompensatePayment, "payment-service"⟩

/-- Forward step 2 of the fixed plan. -/
def step2 : SagaStep := ⟨.ReserveInventory, some .CompensateInventory, "inventory-service"⟩

/-- Forward step 3 of the fixed plan. -/
def step3 : SagaStep := ⟨.ApproveOrder, none, "order-service"⟩

/-- The saga produced by handling `replyFail` on `saga2f`. -/
def c4resSaga : SagaTransaction :=
  { saga2f with
      status := .Compensating
      context := [("order_data", encodeOrderData od0),
                  ("compensation_steps", encodeSagaSteps [step1, step0]),
                  ("compensation_index", Json.num 0)] }

/-- The command sent while handling `replyFail` on `saga2f`. -/
def c4resSent : List (String × Command) :=
  [("payment-service",
    ⟨502, 501, .CompensatePayment, encodePaymentData ⟨10, 100, "credit_card"⟩,
     "501_503", 1000⟩)]

/-- The saga produced by handling `replySucc` on `saga0`. -/
def c9resSaga : SagaTransaction := { saga0 with current_step := 1, updated_at := 1000 }

/-- The command sent while handling `replySucc` on `saga0`. -/
def c9resSent : List (String × Command) :=
  [("payment-service",
    ⟨502, 501, .ProcessPayment, encodePaymentData ⟨10, 100, "credit_card"⟩,
     "501_503", 1000⟩)]

/-- The four forward steps of the fixed plan. -/
def sagaSteps0 : List SagaStep := [step0, step1, step2, step3]

/-- The saga decoded from `dbGarbage` (unknown status falls back to Failed). -/
def c8wSaga : SagaTransaction :=
  ⟨501, sagaSteps0, 0, .Failed, [("order_data", encodeOrderData od0)],
   1000, 1000⟩

/-! ### Claim theorems -/

/-- C3: on an idempotency hit, `handle_command` leaves the database untouched
(no commit at all, so no domain mutation and no new idempotency insert, and
the dispatch match is never reached) and publishes a single reply with
`status = Success` and `result` equal to the stored row's result. -/
theorem c3_idempotency_hit_cached_reply
    (st : OrderService.OrderDb) (cmd : Command) (g : Gen)
    (row : ProcessedCommand)
    (hdb : g.dbCheckoutOk = true) (hpub : g.publishOk = true)
    (hhit : OrderService.check_idempotency st cmd.idempotency_key = some row) :
    OrderService.orderHandleCommand st cmd g =
      ⟨st, [], [⟨g.replyId, cmd.id, cmd.saga_id, .Success, row.result, none,
                 g.now⟩], .ok ()⟩ := by
  unfold OrderService.orderHandleCommand
  rw [hdb, hhit, hpub]
  simp

/-- Witness for C3 at a concrete hit state. -/
theorem c3_idempotency_hit_cached_reply_witness :
    OrderService.orderHandleCommand sHit cmdCreate g0 =
      ⟨sHit, [], [⟨500, 1, 2, .Success, some (Json.num 7), none, 1000⟩],
       .ok ()⟩ :=
  c3_idempotency_hit_cached_reply sHit cmdCreate g0
    ⟨"k1", 9, some (Json.num 7), some 5⟩ rfl rfl rfl

/-- C2 counterexample: a command whose handling fails with an infrastructure
error (database-pool checkout failure).  The runtime logs the error, but the
consumer offset IS committed — `commit_message` runs unconditionally in the
`Ok(m)` branch of `CommandHandler::run` — so the message is not redelivered,
contradicting the claim. -/
theorem c2_counterexample :
    (OrderService.orderHandleCommand s0 cmdCreate gBad).outcome =
        .error .dbCheckout ∧
    (OrderService.orderRunStep s0 (.cmdMsg cmdCreate) gBad).offsetCommitted =
        true ∧
    (OrderService.orderRunStep s0 (.cmdMsg cmdCreate) gBad).logs =
        ["Error handling command"] :=
  ⟨rfl, rfl, rfl⟩

/-- C2 (amended): whenever `handle_command` fails, the per-message loop of
`CommandHandler::run` logs the error and still commits the consumer offset
(both in the order and the inventory participant); the only case that skips
the offset commit is a stream receive error. -/
theorem c2_offset_committed_despite_handler_error :
    (∀ (st : OrderService.OrderDb) (cmd : Command) (g : Gen) (e : RunErr),
      (OrderService.orderHandleCommand st cmd g).outcome = .error e →
      (OrderService.orderRunStep st (.cmdMsg cmd) g).offsetCommitted = true ∧
      (OrderService.orderRunStep st (.cmdMsg cmd) g).logs =
        ["Error handling command"]) ∧
    (∀ (st : InventoryService.InvDb) (cmd : Command) (g : Gen) (e : RunErr),
      (InventoryService.invHandleCommand st cmd g).outcome = .error e →
      (InventoryService.invRunStep st (.cmdMsg cmd) g).offsetCommitted = true ∧
      (InventoryService.invRunStep st (.cmdMsg cmd) g).logs =
        ["Error handling command"]) ∧
    (∀ (st : OrderService.OrderDb) (g : Gen),
      (OrderService.orderRunStep st .recvError g).offsetCommitted = false) := by
  refine ⟨?_, ?_, ?_⟩
  · intro st cmd g e h
    constructor <;> simp [OrderService.orderRunStep, h]
  · intro st cmd g e h
    constructor <;> simp [InventoryService.invRunStep, h]
  · intro st g
    rfl

/-- Witness for C2 (amended) at the concrete checkout failure. -/
theorem c2_offset_committed_despite_handler_error_witness :
    ((OrderService.orderRunStep s0 (.cmdMsg cmdCreate) gBad).offsetCommitted =
        true ∧
      (OrderService.orderRunStep s0 (.cmdMsg cmdCreate) gBad).logs =
        ["Error handling command"]) ∧
    ((InventoryService.invRunStep ⟨[], [], []⟩ (.cmdMsg cmdRes) gBad).offsetCommitted = true ∧
      (InventoryService.invRunStep ⟨[], [], []⟩ (.cmdMsg cmdRes) gBad).logs =
        ["Error handling command"]) ∧
    (OrderService.orderRunStep s0 .recvError g0).offsetCommitted = false :=
  ⟨c2_offset_committed_despite_handler_error.1 s0 cmdCreate gBad .dbCheckout rfl,
   c2_offset_committed_despite_handler_error.2.1 ⟨[], [], []⟩ cmdRes gBad
     .dbCheckout rfl,
   c2_offset_committed_despite_handler_error.2.2 s0 g0⟩

/-- C7 counterexample: the two-worker race played out sequentially.  Worker A
sees an idempotency miss on the empty database `s0`; worker B then handles the
same delivery to completion, committing `sAfter`; when worker A reaches its
`store_processed_command` against `sAfter`, the unique-key insert fails and
the function returns the error — it is propagated (`?`), not turned into a
re-read of the stored row and a cached reply. -/
theorem c7_counterexample :
    OrderService.check_idempotency s0 cmdCreate.idempotency_key = none ∧
    (OrderService.orderHandleCommand s0 cmdCreate g0).state = sAfter ∧
    OrderService.store_processed_command sAfter cmdCreate
      (CommandReply.success cmdCreate.id cmdCreate.saga_id
        (some (encodeOrderData od0)) g0) g0 = .error .duplicateKey :=
  ⟨rfl, rfl, rfl⟩

/-- C7 (amended): in both the order and the inventory participant,
`store_processed_command` returns the duplicate-key error whenever a row with
the command's idempotency key already exists; no handler re-reads the row or
emits the cached reply on that path. -/
theorem c7_duplicate_key_error_propagates :
    (∀ (st : OrderService.OrderDb) (cmd : Command) (reply : CommandReply)
        (g : Gen),
      st.processed_commands.any
        (fun p => p.idempotency_key == cmd.idempotency_key) = true →
      OrderService.store_processed_command st cmd reply g =
        .error .duplicateKey) ∧
    (∀ (st : InventoryService.InvDb) (cmd : Command) (reply : CommandReply)
        (g : Gen),
      st.processed_commands.any
        (fun p => p.idempotency_key == cmd.idempotency_key) = true →
      InventoryService.store_processed_command st cmd reply g =
        .error .duplicateKey) := by
  constructor
  · intro st cmd reply g h
    unfold OrderService.store_processed_command
    rw [h]
    rfl
  · intro st cmd reply g h
    unfold InventoryService.store_processed_command
    rw [h]
    rfl

/-- Witness for C7 (amended) at concrete stores. -/
theorem c7_duplicate_key_error_propagates_witness :
    OrderService.store_processed_command sAfter cmdCreate replyFail g0 =
      .error .duplicateKey ∧
    InventoryService.store_processed_command
      ⟨[], [], [⟨"k3", 9, none, none⟩]⟩ cmdRes replyFail g0 =
      .error .duplicateKey :=
  ⟨c7_duplicate_key_error_propagates.1 sAfter cmdCreate replyFail g0 rfl,
   c7_duplicate_key_error_propagates.2 ⟨[], [], [⟨"k3", 9, none, none⟩]⟩
     cmdRes replyFail g0 rfl⟩

/-- C5 counterexample: two executions of `handle_process_payment` from the
same payment database and the same command, with generator environments that
agree on every generated value and environment outcome and differ only in the
random draw, produce a Success reply in one run and a Failed reply in the
other — the handler is not deterministic given identical inputs and local
state. -/
theorem c5_counterexample :
    (PaymentService.handle_process_payment pay0 cmdPay g0).map
      (fun r => r.2.2.status) = .ok .Success ∧
    (PaymentService.handle_process_payment pay0 cmdPay gF).map
      (fun r => r.2.2.status) = .ok .Failed ∧
    CommandStatus.Success ≠ CommandStatus.Failed ∧
    g0.dbCheckoutOk = gF.dbCheckoutOk ∧ g0.publishOk = gF.publishOk ∧
    g0.replyId = gF.replyId ∧ g0.rowId = gF.rowId ∧ g0.cmdId = gF.cmdId ∧
    g0.nonce = gF.nonce ∧ g0.now = gF.now :=
  ⟨rfl, rfl, by decide, rfl, rfl, rfl, rfl, rfl, rfl, rfl⟩

/-- C5 (amended): every participant handler other than
`handle_process_payment` is independent of the random draw (given identical
inputs, local state and generated values, its result is unchanged when only
the draw changes); `handle_process_payment` is independent of the draw
exactly when the first payment row found for the order has status
"processed". -/
theorem c5_handler_determinism :
    (∀ (st : PaymentService.PayDb) (cmd : Command) (g : Gen) (r1 r2 : ℚ)
        (pd : PaymentData) (p : PaymentService.Payment),
      decodePaymentData cmd.payload = .ok pd →
      st.payments.find? (fun q => q.order_id == pd.order_id) = some p →
      p.status = "processed" →
      PaymentService.handle_process_payment st cmd { g with rand := r1 } =
        PaymentService.handle_process_payment st cmd { g with rand := r2 }) ∧
    (∀ (st : PaymentService.PayDb) (cmd : Command) (g : Gen) (r1 r2 : ℚ),
      PaymentService.handle_compensate_payment st cmd { g with rand := r1 } =
        PaymentService.handle_compensate_payment st cmd { g with rand := r2 }) ∧
    (∀ (st : OrderService.OrderDb) (cmd : Command) (g : Gen) (r1 r2 : ℚ),
      OrderService.handle_create_order st cmd { g with rand := r1 } =
        OrderService.handle_create_order st cmd { g with rand := r2 } ∧
      OrderService.handle_approve_order st cmd { g with rand := r1 } =
        OrderService.handle_approve_order st cmd { g with rand := r2 } ∧
      OrderService.handle_cancel_order st cmd { g with rand := r1 } =
        OrderService.handle_cancel_order st cmd { g with rand := r2 }) ∧
    (∀ (st : InventoryService.InvDb) (cmd : Command) (g : Gen) (r1 r2 : ℚ),
      InventoryService.handle_reserve_inventory st cmd { g with rand := r1 } =
        InventoryService.handle_reserve_inventory st cmd { g with rand := r2 } ∧
      InventoryService.handle_compensate_inventory st cmd { g with rand := r1 } =
        InventoryService.handle_compensate_inventory st cmd { g with rand := r2 }) := by
  refine ⟨?_, ?_, ?_, ?_⟩
  · intro st cmd g r1 r2 pd p hdec hfind hstat
    unfold PaymentService.handle_process_payment
    rw [hdec]
    simp only []
    rw [hfind]
    simp only [hstat, if_pos]
    rfl
  · intro st cmd g r1 r2
    unfold PaymentService.handle_compensate_payment
    cases hdec : decodePaymentData cmd.payload <;> rfl
  · intro st cmd g r1 r2
    refine ⟨?_, ?_, ?_⟩ <;>
      first
        | (unfold OrderService.handle_create_order
           cases hdec : decodeOrderData cmd.payload <;> rfl)
        | (unfold OrderService.handle_approve_order
           cases hdec : decodeOrderData cmd.payload <;> rfl)
        | (unfold OrderService.handle_cancel_order
           cases hdec : decodeOrderData cmd.payload <;> rfl)
  · intro st cmd g r1 r2
    constructor
    · unfold InventoryService.handle_reserve_inventory
      cases hdec : decodeInventoryData cmd.payload <;> rfl
    · unfold InventoryService.handle_compensate_inventory
      cases hdec : decodeInventoryData cmd.payload <;> rfl

/-- Witness for C5 (amended) at the "processed first row" state. -/
theorem c5_handler_determinism_witness :
    PaymentService.handle_process_payment pay3 cmdPay
        { g0 with rand := mkRat 1 2 } =
      PaymentService.handle_process_payment pay3 cmdPay
        { g0 with rand := mkRat 9 10 } ∧
    PaymentService.handle_compensate_payment pay3 cmdPay
        { g0 with rand := mkRat 1 2 } =
      PaymentService.handle_compensate_payment pay3 cmdPay
        { g0 with rand := mkRat 9 10 } :=
  ⟨c5_handler_determinism.1 pay3 cmdPay g0 (mkRat 1 2) (mkRat 9 10)
      ⟨10, 100, "credit_card"⟩
      ⟨101, 10, 100, "credit_card", "processed", none, none, none⟩
      rfl rfl rfl,
   c5_handler_determinism.2.1 pay3 cmdPay g0 (mkRat 1 2) (mkRat 9 10)⟩

/-- C10 counterexample: the payment database `pay2` (reachable by
process → compensate → redelivered process) holds a "processed" row for order
10, but its first row for the order is "refunded", so the early return is
skipped: a success draw inserts a third payment row (a second charge), and a
failure draw returns a Failed reply. -/
theorem c10_counterexample :
    pay2.payments.get? 1 =
      some ⟨101, 10, 100, "credit_card", "processed", none, none, none⟩ ∧
    pay2.payments.length = 2 ∧
    (PaymentService.handle_process_payment pay2 cmdPay g0).map
      (fun r => r.1.payments.length) = .ok 3 ∧
    (PaymentService.handle_process_payment pay2 cmdPay gF).map
      (fun r => r.2.2.status) = .ok .Failed :=
  ⟨rfl, rfl, rfl, rfl⟩

/-- C10 (amended): whenever the FIRST payment row found for the command's
order has status "processed", `handle_process_payment` returns a Success
reply carrying that row, performs no insert and no commit, and ignores the
random draw (the conclusion holds for every `g`). -/
theorem c10_processed_payment_cached
    (st : PaymentService.PayDb) (cmd : Command) (g : Gen)
    (pd : PaymentData) (p : PaymentService.Payment)
    (hdec : decodePaymentData cmd.payload = .ok pd)
    (hfind : st.payments.find? (fun q => q.order_id == pd.order_id) = some p)
    (hstat : p.status = "processed") :
    PaymentService.handle_process_payment st cmd g =
      .ok (st, [], CommandReply.success cmd.id cmd.saga_id
        (some (PaymentService.encodePayment p)) g) := by
  unfold PaymentService.handle_process_payment
  rw [hdec]
  simp only []
  rw [hfind]
  simp [hstat]

/-- Witness for C10 (amended) at the "processed first row" state. -/
theorem c10_processed_payment_cached_witness :
    PaymentService.handle_process_payment pay3 cmdPay g0 =
      .ok (pay3, [], CommandReply.success 1 2
        (some (PaymentService.encodePayment
          ⟨101, 10, 100, "credit_card", "processed", none, none, none⟩)) g0) :=
  c10_processed_payment_cached pay3 cmdPay g0 ⟨10, 100, "credit_card"⟩
    ⟨101, 10, 100, "credit_card", "processed", none, none, none⟩ rfl rfl rfl

/-- C1 counterexample: handling a fresh `CreateOrder` command produces TWO
commit points, and the first committed state already contains the order row
and the outbox row while containing no `ProcessedCommand` row — a domain side
effect is committed without the idempotency insert in the same transaction,
contradicting the claim of a single local transaction. -/
theorem c1_counterexample :
    (OrderService.orderHandleCommand s0 cmdCreate g0).commits.length = 2 ∧
    ((OrderService.orderHandleCommand s0 cmdCreate g0).commits.get? 0).map
      (fun s => (s.orders.length, s.outbox_events.length,
                 s.processed_commands.length)) = some (1, 1, 0) :=
  ⟨rfl, rfl⟩

/-- C1 (amended): on an idempotency miss, a `CreateOrder` command commits in
two separate transactions: the first commit carries the domain mutation and
the outbox insert and leaves `processed_commands` untouched; the second is
the standalone `store_processed_command` insert. -/
theorem c1_create_order_commits_split
    (st : OrderService.OrderDb) (cmd : Command) (g : Gen) (od : OrderData)
    (hdb : g.dbCheckoutOk = true)
    (hmiss : OrderService.check_idempotency st cmd.idempotency_key = none)
    (hct : cmd.command_type = .CreateOrder)
    (hdec : decodeOrderData cmd.payload = .ok od) :
    (OrderService.orderHandleCommand st cmd g).commits =
      [ { st with
            orders := st.orders ++
              [⟨od.order_id, od.customer_id, od.product_id, od.quantity,
                od.total_amount, "created", none, none⟩]
            outbox_events := st.outbox_events ++
              [⟨g.rowId, od.order_id, "OrderCreated", encodeOrderData od,
                false, none⟩] },
        { st with
            orders := st.orders ++
              [⟨od.order_id, od.customer_id, od.product_id, od.quantity,
                od.total_amount, "created", none, none⟩]
            outbox_events := st.outbox_events ++
              [⟨g.rowId, od.order_id, "OrderCreated", encodeOrderData od,
                false, none⟩]
            processed_commands := st.processed_commands ++
              [⟨cmd.idempotency_key, cmd.id, some (encodeOrderData od),
                some g.now⟩] } ] := by
  have hnone := List.find?_eq_none.mp hmiss
  have hany : st.processed_commands.any
      (fun p => p.idempotency_key == cmd.idempotency_key) = false := by
    cases ha : st.processed_commands.any
        (fun p => p.idempotency_key == cmd.idempotency_key) with
    | false => rfl
    | true =>
      obtain ⟨x, hx, hpx⟩ := List.any_eq_true.mp ha
      exact absurd hpx (hnone x hx)
  unfold OrderService.orderHandleCommand
  rw [hdb]
  simp only [Bool.not_true, Bool.false_eq_true, if_false]
  rw [hmiss, hct]
  unfold OrderService.handle_create_order
  rw [hdec]
  simp only []
  unfold OrderService.store_processed_command
  rw [hany]
  simp only [Bool.false_eq_true, if_false]
  cases hp : g.publishOk <;> simp [CommandReply.success]

/-- Witness for C1 (amended) at the empty database. -/
theorem c1_create_order_commits_split_witness :
    (OrderService.orderHandleCommand s0 cmdCreate g0).commits =
      [ ⟨[⟨10, 20, 30, 2, 100, "created", none, none⟩],
         [⟨501, 10, "OrderCreated", encodeOrderData od0, false, none⟩], []⟩,
        ⟨[⟨10, 20, 30, 2, 100, "created", none, none⟩],
         [⟨501, 10, "OrderCreated", encodeOrderData od0, false, none⟩],
         [⟨"k1", 1, some (encodeOrderData od0), some 1000⟩]⟩ ] :=
  c1_create_order_commits_split s0 cmdCreate g0 od0 rfl rfl rfl rfl

/-- C6 counterexample: in `inv0` a "reserved" reservation for
(order 10, product 30) exists, but the first reservation found for that pair
is "cancelled", so `handle_reserve_inventory` does not take the early Success
return: it decrements the inventory again (10 → 8) and appends a third
reservation, contradicting "returns Success without changing inventory". -/
theorem c6_counterexample :
    inv0.reservations.get? 1 = some ⟨12, 30, 10, 2, "reserved", none, none⟩ ∧
    inv0.inventory.map (fun i => i.available_quantity) = [10] ∧
    (InventoryService.handle_reserve_inventory inv0 cmdRes g0).map
      (fun r => (r.1.inventory.map (fun i => i.available_quantity),
                 r.1.reservations.length)) = .ok ([8], 3) :=
  ⟨rfl, rfl, rfl⟩

/-- C6 (amended): the complete case analysis of `handle_reserve_inventory`,
with the early-success condition corrected to "the FIRST reservation found
for (order_id, product_id) has status reserved": (1) first-found reserved →
Success with the stored row, no change; (2) otherwise missing inventory row →
Failed "Product not found", no change; (3) otherwise insufficient stock →
Failed "Insufficient inventory", no change; (4) otherwise one transaction
decrements available, increments reserved and appends a "reserved"
reservation, replying Success. -/
theorem c6_reserve_inventory_cases :
    (∀ (st : InventoryService.InvDb) (cmd : Command) (g : Gen)
        (d : InventoryData) (r : InventoryService.Reservation),
      decodeInventoryData cmd.payload = .ok d →
      st.reservations.find? (fun x =>
        x.order_id == d.order_id && x.product_id == d.product_id) = some r →
      r.status = "reserved" →
      InventoryService.handle_reserve_inventory st cmd g =
        .ok (st, [], CommandReply.success cmd.id cmd.saga_id
          (some (InventoryService.encodeReservation r)) g)) ∧
    (∀ (st : InventoryService.InvDb) (cmd : Command) (g : Gen)
        (d : InventoryData),
      decodeInventoryData cmd.payload = .ok d →
      (∀ r, st.reservations.find? (fun x =>
        x.order_id == d.order_id && x.product_id == d.product_id) = some r →
        r.status ≠ "reserved") →
      st.inventory.find? (fun i => i.product_id == d.product_id) = none →
      InventoryService.handle_reserve_inventory st cmd g =
        .ok (st, [], CommandReply.failed cmd.id cmd.saga_id
          "Product not found" g)) ∧
    (∀ (st : InventoryService.InvDb) (cmd : Command) (g : Gen)
        (d : InventoryData) (item : InventoryService.Inventory),
      decodeInventoryData cmd.payload = .ok d →
      (∀ r, st.reservations.find? (fun x =>
        x.order_id == d.order_id && x.product_id == d.product_id) = some r →
        r.status ≠ "reserved") →
      st.inventory.find? (fun i => i.product_id == d.product_id) = some item →
      item.available_quantity < d.quantity →
      InventoryService.handle_reserve_inventory st cmd g =
        .ok (st, [], CommandReply.failed cmd.id cmd.saga_id
          "Insufficient inventory" g)) ∧
    (∀ (st : InventoryService.InvDb) (cmd : Command) (g : Gen)
        (d : InventoryData) (item : InventoryService.Inventory),
      decodeInventoryData cmd.payload = .ok d →
      (∀ r, st.reservations.find? (fun x =>
        x.order_id == d.order_id && x.product_id == d.product_id) = some r →
        r.status ≠ "reserved") →
      st.inventory.find? (fun i => i.product_id == d.product_id) = some item →
      ¬ (item.available_quantity < d.quantity) →
      InventoryService.handle_reserve_inventory st cmd g =
        .ok
          ({ st with
              inventory := st.inventory.map (fun i =>
                if i.product_id = d.product_id then
                  { i with
                      available_quantity := i.available_quantity - d.quantity
                      reserved_quantity := i.reserved_quantity + d.quantity }
                else i)
              reservations := st.reservations ++
                [⟨g.rowId, d.product_id, d.order_id, d.quantity, "reserved",
                  none, none⟩] },
           [{ st with
              inventory := st.inventory.map (fun i =>
                if i.product_id = d.product_id then
                  { i with
                      available_quantity := i.available_quantity - d.quantity
                      reserved_quantity := i.reserved_quantity + d.quantity }
                else i)
              reservations := st.reservations ++
                [⟨g.rowId, d.product_id, d.order_id, d.quantity, "reserved",
                  none, none⟩] }],
           CommandReply.success cmd.id cmd.saga_id
             (some (Json.obj [("reserved", .bool true),
                              ("quantity", .num d.quantity)])) g)) := by
  refine ⟨?_, ?_, ?_, ?_⟩
  · intro st cmd g d r hdec hfind hstat
    unfold InventoryService.handle_reserve_inventory
    rw [hdec]
    simp only []
    rw [hfind]
    simp [hstat]
  · intro st cmd g d hdec hmiss hinv
    unfold InventoryService.handle_reserve_inventory
    rw [hdec]
    simp only []
    cases hfind : st.reservations.find? (fun x =>
        x.order_id == d.order_id && x.product_id == d.product_id) with
    | none => simp [hinv]
    | some r =>
      have := hmiss r hfind
      simp [this, hinv]
  · intro st cmd g d item hdec hmiss hinv hlt
    unfold InventoryService.handle_reserve_inventory
    rw [hdec]
    simp only []
    cases hfind : st.reservations.find? (fun x =>
        x.order_id == d.order_id && x.product_id == d.product_id) with
    | none => simp [hinv, hlt]
    | some r =>
      have := hmiss r hfind
      simp [this, hinv, hlt]
  · intro st cmd g d item hdec hmiss hinv hge
    unfold InventoryService.handle_reserve_inventory
    rw [hdec]
    simp only []
    cases hfind : st.reservations.find? (fun x =>
        x.order_id == d.order_id && x.product_id == d.product_id) with
    | none => simp [hinv, hge]
    | some r =>
      have := hmiss r hfind
      simp [this, hinv, hge]

/-- Witness for C6 (amended): one concrete instance of every case. -/
theorem c6_reserve_inventory_cases_witness :
    (InventoryService.handle_reserve_inventory invHit cmdRes g0 =
      .ok (invHit, [], CommandReply.success 1 2
        (some (InventoryService.encodeReservation
          ⟨12, 30, 10, 2, "reserved", none, none⟩)) g0)) ∧
    (InventoryService.handle_reserve_inventory ⟨[], [], []⟩ cmdRes g0 =
      .ok (⟨[], [], []⟩, [], CommandReply.failed 1 2 "Product not found" g0)) ∧
    (InventoryService.handle_reserve_inventory invShort cmdRes g0 =
      .ok (invShort, [], CommandReply.failed 1 2 "Insufficient inventory" g0)) ∧
    (InventoryService.handle_reserve_inventory invOk cmdRes g0 =
      .ok (⟨[⟨1, 30, 8, 2, none, none⟩],
            [⟨501, 30, 10, 2, "reserved", none, none⟩], []⟩,
           [⟨[⟨1, 30, 8, 2, none, none⟩],
             [⟨501, 30, 10, 2, "reserved", none, none⟩], []⟩],
           CommandReply.success 1 2
             (some (Json.obj [("reserved", .bool true),
                              ("quantity", .num 2)])) g0)) :=
  ⟨c6_reserve_inventory_cases.1 invHit cmdRes g0 ⟨30, 2, 10⟩
      ⟨12, 30, 10, 2, "reserved", none, none⟩ rfl rfl rfl,
   c6_reserve_inventory_cases.2.1 ⟨[], [], []⟩ cmdRes g0 ⟨30, 2, 10⟩ rfl
      (fun r h => Option.noConfusion h) rfl,
   c6_reserve_inventory_cases.2.2.1 invShort cmdRes g0 ⟨30, 2, 10⟩
      ⟨1, 30, 1, 0, none, none⟩ rfl (fun r h => Option.noConfusion h) rfl
      (by decide),
   c6_reserve_inventory_cases.2.2.2 invOk cmdRes g0 ⟨30, 2, 10⟩
      ⟨1, 30, 10, 0, none, none⟩ rfl (fun r h => Option.noConfusion h) rfl
      (by decide)⟩

/-- Looking a key up right after inserting it yields the inserted value. -/
theorem ctxGet_insert_self (ctx : List (String × Json)) (k : String) (v : Json) :
    ctxGet (ctxInsert ctx k v) k = some v := by
  unfold ctxGet ctxInsert
  have h1 : (ctx.filter (fun p => p.1 ≠ k)).find? (fun p => p.1 == k) = none := by
    rw [List.find?_eq_none]
    intro x hx
    have hk := List.of_mem_filter hx
    simp at hk ⊢
    exact hk
  rw [List.find?_append, h1]
  simp [List.find?]

/-- Inserting one key does not change the lookup of another key. -/
theorem ctxGet_insert_ne (ctx : List (String × Json)) (k k2 : String)
    (v : Json) (hne : k2 ≠ k) :
    ctxGet (ctxInsert ctx k v) k2 = ctxGet ctx k2 := by
  unfold ctxGet ctxInsert
  have hkk2 : (k == k2) = false := beq_eq_false_iff_ne.mpr (Ne.symm hne)
  have h2 : ([(k, v)].find? (fun p => p.1 == k2)) = none := by
    simp only [List.find?, hkk2]
  rw [List.find?_append, h2, Option.or_none]
  congr 1
  induction ctx with
  | nil => rfl
  | cons a t ih =>
    by_cases h : a.1 = k
    · have ha : (a.1 == k2) = false := by rw [h]; exact hkk2
      have hd : (decide (a.1 ≠ k)) = false := by simp [h]
      simp only [List.filter_cons, hd, List.find?, ha, Bool.false_eq_true,
        if_false]
      exact ih
    · by_cases hk2 : a.1 = k2
      · have ha : (a.1 == k2) = true := by simp [hk2]
        have hd : (decide (a.1 ≠ k)) = true := by simp [h]
        simp only [List.filter_cons, hd, List.find?, ha]
      · have ha : (a.1 == k2) = false := beq_eq_false_iff_ne.mpr hk2
        have hd : (decide (a.1 ≠ k)) = true := by simp [h]
        simp only [List.filter_cons, hd, List.find?, ha]
        exact ih

/-- `process_next_compensation` never modifies the context, the cursor or the
plan of the saga it returns. -/
theorem process_next_compensation_fields
    (saga : SagaTransaction) (g : Gen)
    (r : SagaTransaction × List (String × Command))
    (h : OrderService.process_next_compensation saga g = .ok r) :
    r.1.context = saga.context ∧ r.1.current_step = saga.current_step ∧
    r.1.steps = saga.steps := by
  unfold OrderService.process_next_compensation at h
  iterate 10 (all_goals (try split at h))
  all_goals first
    | exact Except.noConfusion h
    | (injection h with h2; subst h2; exact ⟨rfl, rfl, rfl⟩)

/-- C4: when the orchestrator handles a `Failed` reply, the saga coming out of
`start_compensation` carries in its context `compensation_steps` equal to the
reverse of `steps[0..current_step]` filtered to the steps with a non-empty
compensation type, and `compensation_index = 0`; `current_step` is not
advanced before (or after) this computation.  The hypothesis
`current_step ≤ steps.length` is the region where the source's slice
`steps[0..current_step]` does not panic (`0 ≤ current_step ≤ len(steps)` is
the standing invariant). -/
theorem c4_start_compensation_stores_plan
    (saga : SagaTransaction) (reply : CommandReply) (g : Gen)
    (saga2 : SagaTransaction) (sent : List (String × Command))
    (hcs : saga.current_step ≤ saga.steps.length)
    (hst : reply.status = .Failed)
    (h : OrderService.handleReplySaga saga reply g = .ok (saga2, sent)) :
    ctxGet saga2.context "compensation_steps" =
      some (encodeSagaSteps
        (((saga.steps.take saga.current_step).reverse).filter
          (fun step => step.compensation_type.isSome))) ∧
    ctxGet saga2.context "compensation_index" = some (Json.num 0) ∧
    saga2.current_step = saga.current_step := by
  unfold OrderService.handleReplySaga at h
  rw [hst] at h
  simp only [OrderService.start_compensation] at h
  obtain ⟨hctx, hcur, hsteps⟩ :=
    process_next_compensation_fields _ _ _ h
  refine ⟨?_, ?_, hcur⟩
  · rw [hctx, ctxGet_insert_ne _ _ _ _ (by decide), ctxGet_insert_self]
    rfl
  · rw [hctx, ctxGet_insert_self]

/-- Witness for C4 at a saga whose first two steps succeeded. -/
theorem c4_start_compensation_stores_plan_witness :
    ctxGet c4resSaga.context "compensation_steps" =
      some (encodeSagaSteps
        (((saga2f.steps.take saga2f.current_step).reverse).filter
          (fun step => step.compensation_type.isSome))) ∧
    ctxGet c4resSaga.context "compensation_index" = some (Json.num 0) ∧
    c4resSaga.current_step = saga2f.current_step :=
  c4_start_compensation_stores_plan saga2f replyFail g0 c4resSaga c4resSent
    (by decide) rfl rfl

/-- `advance_step` preserves the saga invariant. -/
theorem sagaInv_advance_step (s : SagaTransaction) (now : Nat)
    (h : sagaInv s) : sagaInv (s.advance_step now) := by
  obtain ⟨h1, h2⟩ := h
  unfold SagaTransaction.advance_step
  by_cases hlt : s.current_step < s.steps.length
  · rw [if_pos hlt]
    refine ⟨by simpa using hlt, ?_⟩
    intro hc
    have := h2 hc
    omega
  · rw [if_neg hlt]
    exact ⟨h1, h2⟩

/-- C9: the saga constructor, `advance_step`, and the reply handler's
forward-success branch all preserve `0 ≤ current_step ≤ len(steps)`, and a
saga whose status is (or becomes) `Completed` has
`current_step = len(steps)`. -/
theorem c9_saga_cursor_invariant :
    (∀ (od : OrderData) (g : Gen), sagaInv (SagaTransaction.new od g)) ∧
    (∀ (s : SagaTransaction) (now : Nat),
      sagaInv s → sagaInv (s.advance_step now)) ∧
    (∀ (s : SagaTransaction) (reply : CommandReply) (g : Gen)
        (s2 : SagaTransaction) (sent : List (String × Command)),
      sagaInv s → reply.status = .Success → s.status ≠ .Compensating →
      OrderService.handleReplySaga s reply g = .ok (s2, sent) →
      sagaInv s2) := by
  refine ⟨?_, sagaInv_advance_step, ?_⟩
  · intro od g
    constructor
    · exact Nat.zero_le _
    · intro hc
      exact absurd hc (by simp [SagaTransaction.new])
  · intro s reply g s2 sent hinv hsucc hnc h
    unfold OrderService.handleReplySaga at h
    simp only [hsucc, if_neg hnc] at h
    have hinv1 : sagaInv (s.advance_step g.now) := sagaInv_advance_step s g.now hinv
    cases hns : (s.advance_step g.now).next_step with
    | some step =>
      simp only [hns] at h
      cases hc : OrderService.create_command_for_step (s.advance_step g.now)
          step g with
      | error e =>
        simp only [hc] at h
        exact Except.noConfusion h
      | ok command =>
        simp only [hc] at h
        by_cases hp : g.publishOk
        · rw [if_pos hp] at h
          injection h with h2
          rw [Prod.mk.injEq] at h2
          obtain ⟨hfst, hsnd⟩ := h2
          rw [← hfst]
          exact hinv1
        · rw [if_neg hp] at h
          exact Except.noConfusion h
    | none =>
      simp only [hns] at h
      injection h with h2
      rw [Prod.mk.injEq] at h2
      obtain ⟨hfst, hsnd⟩ := h2
      have hge : (s.advance_step g.now).steps.length ≤
          (s.advance_step g.now).current_step := by
        by_contra hlt
        push_neg at hlt
        unfold SagaTransaction.next_step at hns
        rw [if_pos hlt] at hns
        rw [List.get?_eq_none] at hns
        omega
      have heq : (s.advance_step g.now).current_step =
          (s.advance_step g.now).steps.length :=
        le_antisymm hinv1.1 hge
      rw [← hfst]
      exact ⟨le_of_eq heq, fun _ => heq⟩

/-- Witness for C9: the fresh saga, a concrete advance, and the saga that
comes out of the forward-success branch on `saga0`. -/
theorem c9_saga_cursor_invariant_witness :
    sagaInv (SagaTransaction.new od0 g0) ∧
    sagaInv (saga2f.advance_step 5) ∧
    sagaInv c9resSaga :=
  ⟨c9_saga_cursor_invariant.1 od0 g0,
   c9_saga_cursor_invariant.2.1 saga2f 5 ⟨by decide, by decide⟩,
   c9_saga_cursor_invariant.2.2 saga0 replySucc g0 c9resSaga c9resSent
     ⟨by decide, by decide⟩ rfl (by decide) rfl⟩

/-- `CommandType` decode is a retraction of encode. -/
theorem decodeCommandType_encode (t : CommandType) :
    decodeCommandType (encodeCommandType t) = .ok t := by
  cases t <;> rfl

/-- `SagaStep` decode is a retraction of encode. -/
theorem decodeSagaStep_encode (s : SagaStep) :
    decodeSagaStep (encodeSagaStep s) = .ok s := by
  obtain ⟨ct, comp, sn⟩ := s
  cases comp with
  | none => cases ct <;> rfl
  | some t => cases ct <;> cases t <;> rfl

/-- Step-list decode is a retraction of encode. -/
theorem decodeStepList_encode (l : List SagaStep) :
    decodeStepList (l.map encodeSagaStep) = .ok l := by
  induction l with
  | nil => rfl
  | cons s t ih =>
    simp [decodeStepList, decodeSagaStep_encode, ih]

/-- `Vec<SagaStep>` decode is a retraction of encode. -/
theorem decodeSagaSteps_encode (l : List SagaStep) :
    decodeSagaSteps (encodeSagaSteps l) = .ok l := by
  simp [decodeSagaSteps, encodeSagaSteps, decodeStepList_encode]

/-- The `usize as i32` / `i32 as usize` pair is the identity below `2^31`. -/
theorem usize_i32_roundtrip (n : Nat) (h : n < 2 ^ 31) :
    OrderService.i32ToUsize (OrderService.usizeToI32 n) = n := by
  unfold OrderService.i32ToUsize OrderService.usizeToI32
  have h1 : (n + 2 ^ 31) % 2 ^ 32 = n + 2 ^ 31 := Nat.mod_eq_of_lt (by omega)
  rw [h1]
  omega

/-- C8 (amended): converting a saga to the persisted row and back is the
identity whenever `current_step < 2^31` (for larger cursors the
`usize as i32` cast wraps — see the counterexample); decoding never fails
because of the status string, and whenever decoding succeeds on a row whose
status string is not one of the six variant names the result has
`status = Failed`. -/
theorem c8_saga_row_roundtrip :
    (∀ (saga : SagaTransaction) (now : Nat), saga.current_step < 2 ^ 31 →
      OrderService.SagaTransaction.tryFrom
        (OrderService.DbSagaTransaction.fromSaga saga) now = .ok saga) ∧
    (∀ (db : OrderService.DbSagaTransaction) (s : SagaTransaction)
        (now : Nat),
      OrderService.SagaTransaction.tryFrom db now = .ok s →
      ¬ (db.status = "Started" ∨ db.status = "InProgress" ∨
         db.status = "Completed" ∨ db.status = "Compensating" ∨
         db.status = "Compensated" ∨ db.status = "Failed") →
      s.status = .Failed) ∧
    (∀ (db : OrderService.DbSagaTransaction) (now : Nat)
        (l : List SagaStep) (c : List (String × Json)),
      decodeSagaSteps db.steps = .ok l →
      OrderService.decodeContext db.context = .ok c →
      exceptOk (OrderService.SagaTransaction.tryFrom db now) = true) := by
  refine ⟨?_, ?_, ?_⟩
  · intro saga now h
    obtain ⟨sid, ssteps, scs, sstatus, sctx, sca, sua⟩ := saga
    unfold OrderService.DbSagaTransaction.fromSaga
      OrderService.SagaTransaction.tryFrom
    simp only [decodeSagaSteps_encode]
    have hcs := usize_i32_roundtrip scs h
    cases sstatus <;>
      simp [OrderService.sagaStatusName, OrderService.decodeContext, hcs]
  · intro db s now h hnot
    unfold OrderService.SagaTransaction.tryFrom at h
    cases hsteps : decodeSagaSteps db.steps with
    | error e =>
      rw [hsteps] at h
      exact Except.noConfusion h
    | ok l =>
      rw [hsteps] at h
      cases hctx : OrderService.decodeContext db.context with
      | error e =>
        simp only [hctx] at h
        exact Except.noConfusion h
      | ok c =>
        simp only [hctx] at h
        injection h with h2
        rw [← h2]
        split
        all_goals simp_all
  · intro db now l c hsteps hctx
    simp [OrderService.SagaTransaction.tryFrom, hsteps, hctx, exceptOk]

/-- C8 counterexample: for the constructible saga `sagaBig` with
`current_step = 2^31`, the row conversion stores `current_step` as the
wrapped `i32` value `-2^31`, and decoding maps it to `2^64 - 2^31`, so the
row round trip is not the identity on `current_step`. -/
theorem c8_counterexample :
    (OrderService.SagaTransaction.tryFrom
      (OrderService.DbSagaTransaction.fromSaga sagaBig) 0).map
        (fun s => s.current_step) = .ok 18446744071562067968 ∧
    sagaBig.current_step = 2147483648 ∧
    (18446744071562067968 : Nat) ≠ 2147483648 :=
  ⟨rfl, rfl, by decide⟩

/-- Witness for C8 (amended): the round trip is the identity on `saga0`, the
row `dbGarbage` (status "Garbage") decodes with status `Failed`, and decoding
succeeds whenever steps and context decode. -/
theorem c8_saga_row_roundtrip_witness :
    OrderService.SagaTransaction.tryFrom
      (OrderService.DbSagaTransaction.fromSaga saga0) 0 = .ok saga0 ∧
    c8wSaga.status = SagaStatus.Failed ∧
    exceptOk (OrderService.SagaTransaction.tryFrom dbGarbage 3) = true :=
  ⟨c8_saga_row_roundtrip.1 saga0 0 (by decide),
   c8_saga_row_roundtrip.2.1 dbGarbage c8wSaga 1000 rfl (by decide),
   c8_saga_row_roundtrip.2.2 dbGarbage 3 sagaSteps0
     [("order_data", encodeOrderData od0)] rfl rfl⟩
